import Mathlib

/-!
Shallow embedding of the JupyterLab debugger editor-handler fragment:
`EditorHandler` (gutter breakpoints, current-line highlight, disposal) and
the `Breakpoints` panel.  Effectful calls into the external debugger service
are reflected as returned values (`Option UpdateBreakpointsCall`,
`List ServiceCall`); the editor state the fragment reads and writes is made
explicit as a `structure`.
-/

namespace JLDebugger

/-- Source descriptor attached to a breakpoint created by this fragment:
`Private.createBreakpoint` builds a source object holding only a `name`. -/
structure Source where
  name : String
deriving DecidableEq

/-- Breakpoint record (`IDebugger.IBreakpoint` as used by this fragment). -/
structure Breakpoint where
  line : Nat
  active : Bool
  verified : Bool
  source : Source
deriving DecidableEq

/-- One document line of the CodeMirror editor as this fragment observes it:
its text, whether the `breakpoints` gutter carries a marker (the truthiness of
`lineInfo(i).gutterMarkers`), and whether the line's wrap class contains
`jp-DebuggerEditor-highlight`. -/
structure Line where
  text : String
  gutterMarker : Bool
  highlighted : Bool
deriving DecidableEq

/-- Slice of the editor state that this fragment reads and writes. -/
structure Editor where
  isDisposed : Bool
  lines : List Line
  lineNumbers : Bool
  gutters : List String
deriving DecidableEq

/-- Source `editor.doc.lineCount()`. -/
def Editor.lineCount (e : Editor) : Nat := e.lines.length

/-- Source `this._editor.model.value.text`: the full document text. -/
def Editor.text (e : Editor) : String :=
  String.intercalate "\n" (e.lines.map (fun l => l.text))

/-- Result of `editor.lineInfo(n)` for an in-range line. -/
structure LineInfo where
  line : Nat
  text : String
  gutterMarkers : Bool
deriving DecidableEq

/-- Source `editor.lineInfo(n)`: `none` when the line number is out of range,
mirroring the null CodeMirror returns there. -/
def Editor.lineInfo (e : Editor) (n : Nat) : Option LineInfo :=
  match e.lines[n]? with
  | some l => some { line := n, text := l.text, gutterMarkers := l.gutterMarker }
  | none => none

/-- Replace the line at index `n` by `f` of it; out-of-range indices leave the
document untouched. -/
def setLineAt (f : Line → Line) : Nat → List Line → List Line
  | _, [] => []
  | 0, l :: ls => f l :: ls
  | n + 1, l :: ls => l :: setLineAt f n ls

/-- Source `editor.setGutterMarker(n, 'breakpoints', node-or-null)`: `m = true`
stands for the marker node `Private.createMarkerNode()` and `m = false` for
null. -/
def Editor.setGutterMarker (e : Editor) (n : Nat) (m : Bool) : Editor :=
  { e with lines := setLineAt (fun l => { l with gutterMarker := m }) n e.lines }

/-- Source `editor.addLineClass(n, 'wrap', LINE_HIGHLIGHT_CLASS)`. -/
def Editor.addLineClass (e : Editor) (n : Nat) : Editor :=
  { e with lines := setLineAt (fun l => { l with highlighted := true }) n e.lines }

/-- The 0-indexed document lines that currently carry a gutter marker, in
increasing order. -/
def Editor.markedLines (e : Editor) : List Nat :=
  (List.range e.lineCount).filter (fun i =>
    ((e.lines[i]?).map (fun l => l.gutterMarker)).getD false)

/-- Fold of `setGutterMarker _ true` over a list of 0-indexed lines: the loop
body of `_addBreakpointsToEditor` after factoring the line computation out. -/
def setMarkersAt (ns : List Nat) (e : Editor) : Editor :=
  ns.foldl (fun e n => e.setGutterMarker n true) e

namespace EditorHandler

/-- Source static `EditorHandler.clearHighlight`: short-circuits when the
editor is null or disposed (the null case lives in `clearHighlightOpt`), else
removes the highlight class from every line via `doc.eachLine`. -/
def clearHighlight (e : Editor) : Editor :=
  if e.isDisposed then e
  else { e with lines := e.lines.map (fun l => { l with highlighted := false }) }

/-- Source static `EditorHandler.clearGutter`: removes the gutter marker from
every line that has one.  The source checks only that the editor is non-null
(see `clearGutterOpt`); it performs no disposed check. -/
def clearGutter (e : Editor) : Editor :=
  { e with lines := e.lines.map (fun l =>
      if l.gutterMarker then { l with gutterMarker := false } else l) }

/-- Static `clearHighlight` at the JS level, where the editor may be null. -/
def clearHighlightOpt : Option Editor → Option Editor
  | none => none
  | some e => some (clearHighlight e)

/-- Static `clearGutter` at the JS level, where the editor may be null. -/
def clearGutterOpt : Option Editor → Option Editor
  | none => none
  | some e => some (clearGutter e)

/-- Source static `EditorHandler.showCurrentLine(editor, line)`:
`clearHighlight(editor)` then `addLineClass(line - 1, 'wrap', ...)`; the
second step is not guarded by any null or disposed check in the source. -/
def showCurrentLine (e : Editor) (line : Nat) : Editor :=
  (clearHighlight e).addLineClass (line - 1)

end EditorHandler

/-- Source `session.client`: identity (`path`) and display name (`name`) of
the active debug target. -/
structure SessionClient where
  path : String
  name : String
deriving DecidableEq

/-- External debugger service as consumed by this fragment. -/
structure DebuggerService where
  sessionClient : SessionClient
  getCodeId : String → String

/-- External breakpoints model as consumed by this fragment. -/
structure BreakpointsModel where
  getBreakpoints : String → List Breakpoint

/-- Source `Private.createBreakpoint(session, line)`. -/
def createBreakpoint (session : String) (line : Nat) : Breakpoint :=
  { line := line, active := true, verified := true, source := { name := session } }

/-- Handler state owned by this fragment: the session identity captured at
construction (`this._id = options.debuggerService.session.client.path`), the
optional explicit path, the bound editor, the disposed flag, and flags
standing for the activity monitor, the `gutterClick` listener and the
phosphor signal connections that `dispose` tears down. -/
structure EditorHandler where
  id : String
  path : Option String
  editor : Editor
  isDisposed : Bool
  monitorDisposed : Bool
  gutterClickConnected : Bool
  signalsConnected : Bool
deriving DecidableEq

/-- Arguments of one `debuggerService.updateBreakpoints(code, breakpoints,
path)` call issued by the handler. -/
structure UpdateBreakpointsCall where
  code : String
  breakpoints : List Breakpoint
  path : Option String
deriving DecidableEq

namespace EditorHandler

/-- Source `this._getBreakpoints()`: query the model keyed by the explicit
path when one exists, else by `getCodeId` of the editor's current text. -/
def getBreakpoints (h : EditorHandler) (svc : DebuggerService)
    (model : BreakpointsModel) : List Breakpoint :=
  let code := h.editor.text
  model.getBreakpoints (match h.path with
    | some p => p
    | none => svc.getCodeId code)

/-- Source `onGutterClick(editor, lineNumber)`.  The returned value is the
`updateBreakpoints` call issued, `none` when the click is ignored; the source
mutates no handler state on this path, so no new handler is produced. -/
def onGutterClick (h : EditorHandler) (svc : DebuggerService)
    (model : BreakpointsModel) (lineNumber : Nat) : Option UpdateBreakpointsCall :=
  match h.editor.lineInfo lineNumber with
  | none => none
  | some info =>
    if h.id ≠ svc.sessionClient.path then none
    else
      let remove := info.gutterMarkers
      let breakpoints := h.getBreakpoints svc model
      let breakpoints :=
        if remove then breakpoints.filter (fun ele => ele.line != info.line + 1)
        else breakpoints ++
          [createBreakpoint
            (match h.path with
              | some p => p
              | none => svc.sessionClient.name)
            (info.line + 1)]
      some { code := h.editor.text, breakpoints := breakpoints, path := h.path }

/-- Source `this._getBreakpointsFromEditor()`: the `for` loop over the
document lines collecting each `lineInfo` whose `gutterMarkers` is set. -/
def getBreakpointsFromEditor (h : EditorHandler) : List LineInfo :=
  (List.range h.editor.lineCount).foldl (fun lines i =>
    match h.editor.lineInfo i with
    | some info => if info.gutterMarkers then lines ++ [info] else lines
    | none => lines) []

/-- Source `this._sendEditorBreakpoints()` (the debounce-elapsed handler):
guard on a disposed editor, then map every marked line to a fresh breakpoint
stamped with `session.client.name`, and issue the `updateBreakpoints` call
(returned; `none` when short-circuited). -/
def sendEditorBreakpoints (h : EditorHandler) (svc : DebuggerService) :
    Option UpdateBreakpointsCall :=
  if h.editor.isDisposed then none
  else
    let breakpoints := h.getBreakpointsFromEditor.map (fun info =>
      createBreakpoint svc.sessionClient.name (info.line + 1))
    some { code := h.editor.text, breakpoints := breakpoints, path := h.path }

/-- Source `this._addBreakpointsToEditor()`: read the model's breakpoints,
guard on a stale session identity, then clear the gutter and set one marker
per breakpoint at `breakpoint.line - 1`. -/
def addBreakpointsToEditor (h : EditorHandler) (svc : DebuggerService)
    (model : BreakpointsModel) : EditorHandler :=
  let breakpoints := h.getBreakpoints svc model
  if h.id ≠ svc.sessionClient.path then h
  else
    let ed := clearGutter h.editor
    let ed := breakpoints.foldl (fun e bp => e.setGutterMarker (bp.line - 1) true) ed
    { h with editor := ed }

/-- Handler connected to the model's `changed` and `restored` signals: guard
on a missing or disposed editor, then re-render the gutter. -/
def onBreakpointsChanged (h : EditorHandler) (svc : DebuggerService)
    (model : BreakpointsModel) : EditorHandler :=
  if h.editor.isDisposed then h
  else h.addBreakpointsToEditor svc model

/-- Source `this._clearEditor()`: guard on a missing or disposed editor, then
clear highlight and gutter, switch off line numbers, remove the gutters and
detach the `gutterClick` listener. -/
def clearEditor (h : EditorHandler) : EditorHandler :=
  if h.editor.isDisposed then h
  else
    let ed := clearHighlight h.editor
    let ed := clearGutter ed
    let ed := { ed with lineNumbers := false, gutters := [] }
    { h with editor := ed, gutterClickConnected := false }

/-- Source `dispose()`: return at once when already disposed, else dispose
the activity monitor, run `_clearEditor`, set `isDisposed` and clear the
phosphor signal data. -/
def dispose (h : EditorHandler) : EditorHandler :=
  if h.isDisposed then h
  else
    let h1 := { h with monitorDisposed := true }
    let h2 := h1.clearEditor
    { h2 with isDisposed := true, signalsConnected := false }

end EditorHandler

/-- Calls a UI element can issue into the debugger service. -/
inductive ServiceCall where
  | clearBreakpoints
  | updateBreakpoints (call : UpdateBreakpointsCall)
deriving DecidableEq

/-- A toolbar button as configured by the panel: its icon class, the service
calls its activation issues (each promise is discarded with `void`, so the
click handler neither awaits nor handles the result), and its tooltip. -/
structure ToolbarButtonSpec where
  iconClassName : String
  onClick : List ServiceCall
  tooltip : String
deriving DecidableEq

/-- The `Breakpoints` panel as assembled by its constructor: named header
toolbar items, child widgets in order, and CSS classes added. -/
structure BreakpointsPanel where
  headerToolbarItems : List (String × ToolbarButtonSpec)
  widgets : List String
  cssClasses : List String
deriving DecidableEq

/-- Source `Breakpoints` constructor (src/breakpoints/index.ts): adds the
`closeAll` toolbar button whose click runs `void service.clearBreakpoints()`,
then the header and body widgets and the panel CSS class. -/
def makeBreakpointsPanel : BreakpointsPanel :=
  { headerToolbarItems := [("closeAll",
      { iconClassName := "jp-CloseAllIcon",
        onClick := [ServiceCall.clearBreakpoints],
        tooltip := "Remove All Breakpoints" })],
    widgets := ["header", "body"],
    cssClasses := ["jp-DebuggerBreakpoints"] }

/-- A live two-line editor used to instantiate theorems with hypotheses. -/
def sampleEditor : Editor :=
  { isDisposed := false,
    lines := [{ text := "print(1)", gutterMarker := true, highlighted := false },
              { text := "print(2)", gutterMarker := false, highlighted := false }],
    lineNumbers := true,
    gutters := ["CodeMirror-linenumbers", "breakpoints"] }

/-- A concrete debugger service used to instantiate theorems. -/
def sampleService : DebuggerService :=
  { sessionClient := { path := "nb.ipynb", name := "kernel1" },
    getCodeId := fun code => code }

/-- A concrete breakpoints model holding one breakpoint at line 1 for every
source identity. -/
def sampleModel : BreakpointsModel :=
  { getBreakpoints := fun _ => [createBreakpoint "kernel1" 1] }

/-- A live handler bound to `sampleEditor` with a matching session identity. -/
def sampleHandler : EditorHandler :=
  { id := "nb.ipynb", path := none, editor := sampleEditor,
    isDisposed := false, monitorDisposed := false,
    gutterClickConnected := true, signalsConnected := true }

/-- A handler whose captured session identity differs from the service's
active session path. -/
def staleHandler : EditorHandler :=
  { sampleHandler with id := "other.ipynb" }

/-- A disposed one-line editor: feeding it to `showCurrentLine` shows that the
operation does not short-circuit on a disposed editor. -/
def disposedEditor : Editor :=
  { isDisposed := true,
    lines := [{ text := "a", gutterMarker := false, highlighted := false }],
    lineNumbers := true,
    gutters := [] }

/-- A disposed two-line editor carrying a stale highlight on its first line. -/
def staleHighlightEditor : Editor :=
  { isDisposed := true,
    lines := [{ text := "x", gutterMarker := false, highlighted := true },
              { text := "y", gutterMarker := false, highlighted := false }],
    lineNumbers := false,
    gutters := [] }

/-! Helper lemmas about the editor primitives. -/

theorem setLineAt_getElem? (f : Line → Line) (n : Nat) (ls : List Line) (i : Nat) :
    (setLineAt f n ls)[i]? = if i = n then (ls[i]?).map f else ls[i]? := by
  induction ls generalizing n i with
  | nil => cases n <;> simp [setLineAt]
  | cons l ls ih =>
    cases n with
    | zero => cases i <;> simp [setLineAt]
    | succ n =>
      cases i with
      | zero => simp [setLineAt]
      | succ i => simpa [setLineAt] using ih n i

theorem setLineAt_length (f : Line → Line) (n : Nat) (ls : List Line) :
    (setLineAt f n ls).length = ls.length := by
  induction ls generalizing n with
  | nil => cases n <;> rfl
  | cons l ls ih =>
    cases n with
    | zero => rfl
    | succ n => simp [setLineAt, ih]

theorem setMarkersAt_cons (n : Nat) (ns : List Nat) (e : Editor) :
    setMarkersAt (n :: ns) e = setMarkersAt ns (e.setGutterMarker n true) := rfl

theorem setMarkersAt_length (ns : List Nat) (e : Editor) :
    (setMarkersAt ns e).lines.length = e.lines.length := by
  induction ns generalizing e with
  | nil => rfl
  | cons n ns ih =>
    rw [setMarkersAt_cons, ih]
    exact setLineAt_length _ _ _

theorem setMarkersAt_marker (ns : List Nat) (e : Editor) (i : Nat) :
    ((setMarkersAt ns e).lines[i]?).map (fun l => l.gutterMarker) =
      if i ∈ ns ∧ i < e.lines.length then some true
      else (e.lines[i]?).map (fun l => l.gutterMarker) := by
  induction ns generalizing e with
  | nil => simp [setMarkersAt]
  | cons n ns ih =>
    rw [setMarkersAt_cons, ih]
    have hlen : (e.setGutterMarker n true).lines.length = e.lines.length :=
      setLineAt_length _ _ _
    rw [hlen]
    show _ = if i ∈ n :: ns ∧ i < e.lines.length then some true
      else (e.lines[i]?).map (fun l => l.gutterMarker)
    have hget : (e.setGutterMarker n true).lines[i]? =
        if i = n then (e.lines[i]?).map (fun l => { l with gutterMarker := true })
        else e.lines[i]? := setLineAt_getElem? _ _ _ _
    by_cases hmem : i ∈ ns
    · by_cases hlt : i < e.lines.length
      · simp [hmem, hlt]
      · have hnone : e.lines[i]? = none := List.getElem?_eq_none (Nat.le_of_not_lt hlt)
        simp [hmem, hlt, hget, hnone]
    · by_cases hn : i = n
      · subst hn
        by_cases hlt : i < e.lines.length
        · have hsome : e.lines[i]? = some (e.lines[i]) := List.getElem?_eq_getElem hlt
          simp [hmem, hlt, hget, hsome]
        · have hnone : e.lines[i]? = none := List.getElem?_eq_none (Nat.le_of_not_lt hlt)
          simp [hmem, hlt, hget, hnone]
      · simp [hmem, hn, hget, List.mem_cons]

theorem clearGutter_marker (e : Editor) (i : Nat) :
    (((EditorHandler.clearGutter e).lines)[i]?).map (fun l => l.gutterMarker) =
      (e.lines[i]?).map (fun _ => false) := by
  simp only [EditorHandler.clearGutter, List.getElem?_map]
  cases h : e.lines[i]? with
  | none => rfl
  | some l =>
    cases hl : l.gutterMarker <;> simp [hl]

theorem clearGutter_lines_length (e : Editor) :
    (EditorHandler.clearGutter e).lines.length = e.lines.length := by
  simp [EditorHandler.clearGutter]

theorem clearHighlight_idem (e : Editor) :
    EditorHandler.clearHighlight (EditorHandler.clearHighlight e) =
      EditorHandler.clearHighlight e := by
  by_cases hd : e.isDisposed
  · simp [EditorHandler.clearHighlight, hd]
  · simp only [EditorHandler.clearHighlight, hd, if_false, Bool.false_eq_true,
      List.map_map]
    rfl

theorem mem_sub_one_iff (bps : List Breakpoint)
    (hpos : ∀ bp ∈ bps, 1 ≤ bp.line) (i : Nat) :
    i ∈ bps.map (fun bp => bp.line - 1) ↔ (i + 1) ∈ bps.map (fun bp => bp.line) := by
  simp only [List.mem_map]
  constructor
  · rintro ⟨bp, hbp, hline⟩
    exact ⟨bp, hbp, by have := hpos bp hbp; omega⟩
  · rintro ⟨bp, hbp, hline⟩
    exact ⟨bp, hbp, by omega⟩

theorem lineInfo_line (e : Editor) (n : Nat) (info : LineInfo)
    (h : e.lineInfo n = some info) : info.line = n := by
  unfold Editor.lineInfo at h
  cases hl : e.lines[n]? with
  | none => rw [hl] at h; cases h
  | some l =>
    rw [hl] at h
    cases h
    rfl

theorem collect_map_line (e : Editor) (l : List Nat) (acc : List LineInfo)
    (hl : ∀ i ∈ l, i < e.lines.length) :
    ((l.foldl (fun lines i =>
        match e.lineInfo i with
        | some info => if info.gutterMarkers then lines ++ [info] else lines
        | none => lines) acc).map (fun info => info.line)) =
      acc.map (fun info => info.line) ++
        l.filter (fun i => ((e.lines[i]?).map (fun ln => ln.gutterMarker)).getD false) := by
  induction l generalizing acc with
  | nil => simp
  | cons i l ih =>
    have hi : i < e.lines.length := hl i (List.mem_cons_self _ _)
    have hrest : ∀ j ∈ l, j < e.lines.length := fun j hj => hl j (List.mem_cons_of_mem _ hj)
    have hsome : e.lines[i]? = some (e.lines[i]) := List.getElem?_eq_getElem hi
    have hinfo : e.lineInfo i =
        some { line := i, text := (e.lines[i]).text,
               gutterMarkers := (e.lines[i]).gutterMarker } := by
      simp [Editor.lineInfo, hsome]
    rw [List.foldl_cons, List.filter_cons]
    simp only [hinfo, hsome, Option.map_some, Option.getD_some]
    by_cases hgm : (e.lines[i]).gutterMarker
    · simp only [hgm, if_pos, ih _ hrest, List.map_append]
      simp [hgm]
    · simp only [Bool.not_eq_true] at hgm
      simp [hgm, ih _ hrest]

theorem getBreakpointsFromEditor_map_line (h : EditorHandler) :
    h.getBreakpointsFromEditor.map (fun info => info.line) = h.editor.markedLines := by
  unfold EditorHandler.getBreakpointsFromEditor Editor.markedLines
  have := collect_map_line h.editor (List.range h.editor.lineCount) []
    (fun i hi => by simpa [Editor.lineCount] using List.mem_range.mp hi)
  simpa using this

theorem addBreakpointsToEditor_eq (h : EditorHandler) (svc : DebuggerService)
    (model : BreakpointsModel) (hid : h.id = svc.sessionClient.path) :
    h.addBreakpointsToEditor svc model =
      { h with editor := (setMarkersAt ((h.getBreakpoints svc model).map
          (fun bp => bp.line - 1)) (EditorHandler.clearGutter h.editor)) } := by
  simp [EditorHandler.addBreakpointsToEditor, hid, setMarkersAt, List.foldl_map]

theorem dispose_of_disposed (h : EditorHandler) (hd : h.isDisposed = true) :
    h.dispose = h := by
  simp [EditorHandler.dispose, hd]

theorem clear_both_lines (e : Editor) (hd : e.isDisposed = false) :
    ∀ l ∈ (EditorHandler.clearGutter (EditorHandler.clearHighlight e)).lines,
      l.highlighted = false ∧ l.gutterMarker = false := by
  intro l hl
  simp only [EditorHandler.clearGutter, EditorHandler.clearHighlight, hd,
    Bool.false_eq_true, if_false, List.map_map, List.mem_map] at hl
  obtain ⟨x, -, rfl⟩ := hl
  by_cases hx : x.gutterMarker <;> simp [Function.comp, hx]

/-! Claim theorems. -/

/-- C1: a gutter click at 0-indexed line `L`, on a handler whose bound
session matches the service's active session and whose editor reports line
info for `L`, issues one `updateBreakpoints` call carrying the editor's
current text and the optional path; its breakpoint set is the current set
with every breakpoint at line `L + 1` removed when the line carries a gutter
marker, and the current set with one fresh record at line `L + 1` appended
otherwise, named by the explicit path when one was given and by the
session's display name otherwise. -/
theorem onGutterClick_toggle_spec (h : EditorHandler) (svc : DebuggerService)
    (model : BreakpointsModel) (L : Nat) (info : LineInfo)
    (hinfo : h.editor.lineInfo L = some info)
    (hid : h.id = svc.sessionClient.path) :
    h.onGutterClick svc model L =
      some { code := h.editor.text,
             breakpoints :=
               if info.gutterMarkers then
                 (h.getBreakpoints svc model).filter (fun b => b.line != L + 1)
               else
                 h.getBreakpoints svc model ++
                   [createBreakpoint
                     (match h.path with
                       | some p => p
                       | none => svc.sessionClient.name) (L + 1)],
             path := h.path } := by
  have hline := lineInfo_line _ _ _ hinfo
  unfold EditorHandler.onGutterClick
  rw [hinfo]
  simp [hid, hline]

theorem onGutterClick_toggle_spec_witness :
    sampleHandler.editor.lineInfo 0 =
      some { line := 0, text := "print(1)", gutterMarkers := true } ∧
    sampleHandler.id = sampleService.sessionClient.path ∧
    sampleHandler.onGutterClick sampleService sampleModel 0 =
      some { code := sampleHandler.editor.text,
             breakpoints := [],
             path := none } := by
  refine ⟨rfl, rfl, ?_⟩
  exact onGutterClick_toggle_spec sampleHandler sampleService sampleModel 0
    { line := 0, text := "print(1)", gutterMarkers := true } rfl rfl

/-- C7: a gutter click received by a handler whose captured session identity
differs from the service's active session path is ignored: no
`updateBreakpoints` call is issued (and the source mutates no other state on
this path, which the embedding reflects by `onGutterClick` producing only
the optional call). -/
theorem onGutterClick_stale_session_ignored (h : EditorHandler)
    (svc : DebuggerService) (model : BreakpointsModel) (L : Nat)
    (hid : h.id ≠ svc.sessionClient.path) :
    h.onGutterClick svc model L = none := by
  unfold EditorHandler.onGutterClick
  cases h.editor.lineInfo L with
  | none => rfl
  | some info => simp [hid]

theorem onGutterClick_stale_session_ignored_witness :
    staleHandler.id ≠ sampleService.sessionClient.path ∧
    staleHandler.onGutterClick sampleService sampleModel 0 = none := by
  refine ⟨by decide, ?_⟩
  exact onGutterClick_stale_session_ignored staleHandler sampleService
    sampleModel 0 (by decide)

/-- C8: the source identity used to read the breakpoint set from the model
is the explicit path when one was supplied at construction, and the result
of `getCodeId` on the editor's current text otherwise; an explicit path
always takes precedence. -/
theorem getBreakpoints_key_precedence (h : EditorHandler)
    (svc : DebuggerService) (model : BreakpointsModel) :
    (∀ p, h.path = some p →
      h.getBreakpoints svc model = model.getBreakpoints p) ∧
    (h.path = none →
      h.getBreakpoints svc model =
        model.getBreakpoints (svc.getCodeId h.editor.text)) := by
  constructor
  · intro p hp
    simp [EditorHandler.getBreakpoints, hp]
  · intro hp
    simp [EditorHandler.getBreakpoints, hp]

theorem getBreakpoints_key_precedence_witness :
    sampleHandler.path = none ∧
    sampleHandler.getBreakpoints sampleService sampleModel =
      sampleModel.getBreakpoints
        (sampleService.getCodeId sampleHandler.editor.text) :=
  ⟨rfl, (getBreakpoints_key_precedence sampleHandler sampleService sampleModel).2 rfl⟩

/-- C9: the only header toolbar item of the `Breakpoints` panel is the
`closeAll` button, and its activation issues exactly the service's
`clearBreakpoints` call and nothing else; the call's promise is discarded
(`void`), so the panel neither awaits it nor handles its failure, and the
click changes no panel state. -/
theorem breakpointsPanel_clearAll :
    makeBreakpointsPanel.headerToolbarItems.map (fun it => (it.1, it.2.onClick)) =
      [("closeAll", [ServiceCall.clearBreakpoints])] := rfl

/-- C10: every breakpoint record this fragment creates — by
`Private.createBreakpoint`, hence both the gutter-click append (which pushes
`createBreakpoint` directly) and the debounce resubmission — has
`active = true` and `verified = true`, and its source object holds only the
`name` field (the `Source` type of the embedding has no other field). -/
theorem createBreakpoint_always_active_verified :
    (∀ (s : String) (l : Nat),
      (createBreakpoint s l).active = true ∧
      (createBreakpoint s l).verified = true ∧
      (createBreakpoint s l).source = { name := s }) ∧
    (∀ (h : EditorHandler) (svc : DebuggerService) (call : UpdateBreakpointsCall),
      h.sendEditorBreakpoints svc = some call →
      ∀ bp ∈ call.breakpoints,
        bp.active = true ∧ bp.verified = true ∧
        bp.source = { name := svc.sessionClient.name }) := by
  constructor
  · intro s l
    exact ⟨rfl, rfl, rfl⟩
  · intro h svc call hcall bp hbp
    by_cases hd : h.editor.isDisposed
    · simp [EditorHandler.sendEditorBreakpoints, hd] at hcall
    · simp only [EditorHandler.sendEditorBreakpoints, hd, Bool.false_eq_true,
        if_false, Option.some.injEq] at hcall
      rw [← hcall] at hbp
      simp only [List.mem_map] at hbp
      obtain ⟨info, -, rfl⟩ := hbp
      exact ⟨rfl, rfl, rfl⟩

theorem createBreakpoint_always_active_verified_witness :
    (createBreakpoint "kernel1" 5).active = true ∧
    ((createBreakpoint "kernel1" 1).active = true ∧
     (createBreakpoint "kernel1" 1).verified = true ∧
     (createBreakpoint "kernel1" 1).source = { name := "kernel1" }) := by
  refine ⟨(createBreakpoint_always_active_verified.1 "kernel1" 5).1, ?_⟩
  exact createBreakpoint_always_active_verified.2 sampleHandler sampleService
    { code := sampleHandler.editor.text,
      breakpoints := [createBreakpoint "kernel1" 1], path := none }
    rfl (createBreakpoint "kernel1" 1) (by simp)

/-- C2 counterexample: `showCurrentLine` on a disposed (non-null) editor does
not short-circuit: it still applies the highlight decoration, so the editor
changes, contradicting the claim that every operation touching the editor
checks non-null and not-disposed and performs no action otherwise. -/
theorem showCurrentLine_disposed_acts :
    EditorHandler.showCurrentLine disposedEditor 1 ≠ disposedEditor := by decide

/-- C2 amended: the guards each operation actually performs. The static
`clearHighlight` short-circuits on a null or disposed editor; the static
`clearGutter` short-circuits only on a null editor and clears markers even
on a disposed one; the debounce-triggered submission short-circuits only on
a disposed editor; `showCurrentLine` performs no check of its own — its
inner `clearHighlight` short-circuits, but the highlight decoration is
applied to the given line regardless. -/
theorem editor_guard_checks :
    (EditorHandler.clearGutterOpt none = none) ∧
    (EditorHandler.clearHighlightOpt none = none) ∧
    (∀ e : Editor, e.isDisposed = true → EditorHandler.clearHighlight e = e) ∧
    (∀ (h : EditorHandler) (svc : DebuggerService),
      h.editor.isDisposed = true → h.sendEditorBreakpoints svc = none) ∧
    (∀ (e : Editor) (L : Nat), e.isDisposed = true →
      EditorHandler.showCurrentLine e L = e.addLineClass (L - 1)) ∧
    (∀ e : Editor, ∀ l ∈ (EditorHandler.clearGutter e).lines,
      l.gutterMarker = false) := by
  refine ⟨rfl, rfl, ?_, ?_, ?_, ?_⟩
  · intro e he
    simp [EditorHandler.clearHighlight, he]
  · intro h svc he
    simp [EditorHandler.sendEditorBreakpoints, he]
  · intro e L he
    simp [EditorHandler.showCurrentLine, EditorHandler.clearHighlight, he]
  · intro e l hl
    simp only [EditorHandler.clearGutter, List.mem_map] at hl
    obtain ⟨x, -, rfl⟩ := hl
    by_cases hx : x.gutterMarker <;> simp [hx]

theorem editor_guard_checks_witness :
    disposedEditor.isDisposed = true ∧
    EditorHandler.clearHighlight disposedEditor = disposedEditor ∧
    EditorHandler.showCurrentLine disposedEditor 1 =
      disposedEditor.addLineClass (1 - 1) := by
  refine ⟨rfl, ?_, ?_⟩
  · exact editor_guard_checks.2.2.1 disposedEditor rfl
  · exact editor_guard_checks.2.2.2.2.1 disposedEditor 1 rfl

/-- C4: on a not-yet-disposed handler with a live editor, `dispose` stops
the activity monitor, strips highlight, markers, line numbers, gutters and
the click listener from the editor, clears the signal data and sets
`isDisposed`; disposing again is the identity, and every call on an
already-disposed handler returns at once doing nothing. -/
theorem dispose_idempotent_cleanup (h : EditorHandler)
    (hnd : h.isDisposed = false) (hed : h.editor.isDisposed = false) :
    ((h.dispose).isDisposed = true ∧
     (h.dispose).monitorDisposed = true ∧
     (h.dispose).signalsConnected = false ∧
     (h.dispose).gutterClickConnected = false ∧
     (h.dispose).editor.lineNumbers = false ∧
     (h.dispose).editor.gutters = [] ∧
     (∀ l ∈ (h.dispose).editor.lines,
       l.highlighted = false ∧ l.gutterMarker = false)) ∧
    (h.dispose).dispose = h.dispose ∧
    (∀ h2 : EditorHandler, h2.isDisposed = true → h2.dispose = h2) := by
  have hdef : h.dispose =
      { h with
        monitorDisposed := true,
        editor := { EditorHandler.clearGutter (EditorHandler.clearHighlight h.editor) with
          lineNumbers := false, gutters := [] },
        gutterClickConnected := false,
        isDisposed := true,
        signalsConnected := false } := by
    simp [EditorHandler.dispose, EditorHandler.clearEditor, hnd, hed]
  refine ⟨⟨?_, ?_, ?_, ?_, ?_, ?_, ?_⟩, ?_, dispose_of_disposed⟩
  · rw [hdef]
  · rw [hdef]
  · rw [hdef]
  · rw [hdef]
  · rw [hdef]
  · rw [hdef]
  · rw [hdef]
    exact clear_both_lines h.editor hed
  · apply dispose_of_disposed
    rw [hdef]

theorem dispose_idempotent_cleanup_witness :
    sampleHandler.isDisposed = false ∧
    sampleHandler.editor.isDisposed = false ∧
    (sampleHandler.dispose).isDisposed = true ∧
    (sampleHandler.dispose).dispose = sampleHandler.dispose := by
  have hmain := dispose_idempotent_cleanup sampleHandler rfl rfl
  exact ⟨rfl, rfl, hmain.1.1, hmain.2.1⟩

/-- C5 counterexample: on a disposed editor carrying a stale highlight,
`showCurrentLine(editor, 2)` leaves two highlighted lines, not exactly one,
because its inner `clearHighlight` short-circuits while the decoration is
still applied; the claim quantifies over every editor and so fails here. -/
theorem showCurrentLine_stale_highlight_cex :
    ¬ ((EditorHandler.showCurrentLine staleHighlightEditor 2).lines.countP
        (fun l => l.highlighted)) = 1 := by decide

/-- C5 amended: for every non-disposed editor and every 1-indexed line `L`
within the document, `showCurrentLine(editor, L)` clears every prior
highlight and applies the highlight to 0-indexed line `L - 1`, so that
afterwards exactly line `L` carries the highlight; moreover `clearHighlight`
followed by `showCurrentLine(editor, L)` gives the same editor as
`showCurrentLine(editor, L)` alone. -/
theorem showCurrentLine_exact_highlight (e : Editor) (L : Nat)
    (hd : e.isDisposed = false) (h1 : 1 ≤ L) (h2 : L ≤ e.lineCount) :
    (∀ i, i < e.lineCount →
      ((((EditorHandler.showCurrentLine e L).lines[i]?).map
          (fun l => l.highlighted) = some true) ↔ i = L - 1)) ∧
    EditorHandler.showCurrentLine (EditorHandler.clearHighlight e) L =
      EditorHandler.showCurrentLine e L := by
  constructor
  · intro i hi
    have hi' : i < e.lines.length := hi
    have hsome : e.lines[i]? = some (e.lines[i]) := List.getElem?_eq_getElem hi'
    simp only [EditorHandler.showCurrentLine, Editor.addLineClass,
      EditorHandler.clearHighlight, hd, Bool.false_eq_true, if_false]
    rw [setLineAt_getElem?, List.getElem?_map]
    by_cases hiL : i = L - 1
    · subst hiL
      simp [hsome]
    · simp [hiL, hsome]
  · unfold EditorHandler.showCurrentLine
    rw [clearHighlight_idem]

theorem showCurrentLine_exact_highlight_witness :
    sampleEditor.isDisposed = false ∧ 1 ≤ 2 ∧ 2 ≤ sampleEditor.lineCount ∧
    (((EditorHandler.showCurrentLine sampleEditor 2).lines[1]?).map
        (fun l => l.highlighted) = some true) := by
  refine ⟨rfl, by decide, by decide, ?_⟩
  exact ((showCurrentLine_exact_highlight sampleEditor 2 rfl (by decide)
    (by decide)).1 1 (by decide)).mpr rfl

/-- C6: when the debounce elapses on a handler whose editor is not disposed,
the handler collects exactly the 0-indexed lines currently carrying a gutter
marker, converts each line `L` to a fresh breakpoint at 1-indexed line
`L + 1` named by the session's display name, and submits that set together
with the editor's full text and the optional path. -/
theorem sendEditorBreakpoints_spec (h : EditorHandler) (svc : DebuggerService)
    (hd : h.editor.isDisposed = false) :
    h.sendEditorBreakpoints svc =
      some { code := h.editor.text,
             breakpoints := h.editor.markedLines.map
               (fun L => createBreakpoint svc.sessionClient.name (L + 1)),
             path := h.path } := by
  simp only [EditorHandler.sendEditorBreakpoints, hd, Bool.false_eq_true,
    if_false, Option.some.injEq]
  rw [← getBreakpointsFromEditor_map_line, List.map_map]
  rfl

theorem sendEditorBreakpoints_spec_witness :
    sampleHandler.editor.isDisposed = false ∧
    sampleHandler.sendEditorBreakpoints sampleService =
      some { code := sampleHandler.editor.text,
             breakpoints := [createBreakpoint "kernel1" 1],
             path := none } := by
  refine ⟨rfl, ?_⟩
  exact sendEditorBreakpoints_spec sampleHandler sampleService rfl

/-- C3: after a breakpoints-model `changed` or `restored` signal on a handler
whose editor is not disposed: when the bound session identity equals the
active session path, the rendered gutter markers are exactly one per
breakpoint of the model's set for this source at that breakpoint's line (the
previous markers having been cleared by the render); when the identities
differ, the handler and its editor are left untouched.  Breakpoint lines are
1-indexed and assumed positive, as the data model states. -/
theorem onBreakpointsChanged_renders (h : EditorHandler) (svc : DebuggerService)
    (model : BreakpointsModel)
    (hd : h.editor.isDisposed = false)
    (hpos : ∀ bp ∈ h.getBreakpoints svc model, 1 ≤ bp.line) :
    (h.id = svc.sessionClient.path →
      ∀ i, i < h.editor.lineCount →
        ((((h.onBreakpointsChanged svc model).editor.lines[i]?).map
            (fun l => l.gutterMarker) = some true) ↔
          (i + 1) ∈ (h.getBreakpoints svc model).map (fun bp => bp.line))) ∧
    (h.id ≠ svc.sessionClient.path → h.onBreakpointsChanged svc model = h) := by
  constructor
  · intro hid i hi
    have hi' : i < h.editor.lines.length := hi
    unfold EditorHandler.onBreakpointsChanged
    rw [if_neg (by simp [hd]), addBreakpointsToEditor_eq h svc model hid]
    rw [← mem_sub_one_iff _ hpos i]
    show (((setMarkersAt ((h.getBreakpoints svc model).map (fun bp => bp.line - 1))
        (EditorHandler.clearGutter h.editor)).lines[i]?).map
          (fun l => l.gutterMarker) = some true) ↔ _
    rw [setMarkersAt_marker, clearGutter_lines_length]
    by_cases hmem : i ∈ (h.getBreakpoints svc model).map (fun bp => bp.line - 1)
    · simp [hmem, hi']
    · rw [if_neg (by simp [hmem])]
      rw [clearGutter_marker]
      have hsome : h.editor.lines[i]? = some (h.editor.lines[i]) :=
        List.getElem?_eq_getElem hi'
      simp [hsome, hmem]
  · intro hid
    simp [EditorHandler.onBreakpointsChanged, EditorHandler.addBreakpointsToEditor, hid]

theorem onBreakpointsChanged_renders_witness :
    sampleHandler.editor.isDisposed = false ∧
    (∀ bp ∈ sampleHandler.getBreakpoints sampleService sampleModel, 1 ≤ bp.line) ∧
    (((sampleHandler.onBreakpointsChanged sampleService sampleModel).editor.lines[0]?).map
        (fun l => l.gutterMarker) = some true) := by
  refine ⟨rfl, by decide, ?_⟩
  exact ((onBreakpointsChanged_renders sampleHandler sampleService sampleModel rfl
    (by decide)).1 rfl 0 (by decide)).mpr (by decide)

end JLDebugger
